import Mathlib

/-!
Shallow embedding of DaapClient.js: the DAAP chunk decoder (DaapPacket),
the field extraction helpers, the login request/response handlers and the
client facade, translated from the JavaScript source.  Byte buffers are
modelled as lists of natural numbers (JavaScript string code units); the
JavaScript 32-bit signed shift semantics of the decoder are modelled
explicitly.
-/

namespace DaapClient

/-- JavaScript ToInt32: reduce an integer modulo 2^32 into [-2^31, 2^31). -/
def toInt32 (v : Int) : Int :=
  let r := v % 4294967296
  if r < 2147483648 then r else r - 4294967296

/-- JavaScript left shift on a 32-bit signed integer: multiply by 2^n and
wrap into [-2^31, 2^31).  This is the semantics of the expression
(x and 0xFF) shifted left by 24 in readUInt32, which goes negative when the
byte is 0x80 or above. -/
def jsShl (x : Int) (n : Nat) : Int := toInt32 (x * 2 ^ n)

/-- JavaScript signed (arithmetic) right shift on a 32-bit integer:
wrap into [-2^31, 2^31) and floor-divide by 2^n. -/
def jsShr (x : Int) (n : Nat) : Int := Int.fdiv (toInt32 x) (2 ^ n)

/-- charCodeAt(i) masked with 0xFF, as used by readUInt32.  An out-of-range
index yields NaN in JavaScript, and NaN masked with 0xFF is 0. -/
def byteAt (s : List Nat) (i : Int) : Int :=
  if h : 0 ≤ i ∧ i.toNat < s.length then ((s.get ⟨i.toNat, h.2⟩) % 256 : Nat) else 0

/-- readUInt32 from DaapPacket.js: big-endian combination of four bytes,
each masked to 8 bits and shifted with the JavaScript signed shift. -/
def readUInt32 (data : List Nat) (offset : Int) : Int :=
  jsShl (byteAt data offset) 24 + jsShl (byteAt data (offset + 1)) 16 +
    jsShl (byteAt data (offset + 2)) 8 + byteAt data (offset + 3)

/-- JavaScript String.prototype.substring: clamp both indices into
[0, length], swap them when out of order, and slice. -/
def jsSubstring (s : List Nat) (a b : Int) : List Nat :=
  let len : Int := s.length
  let a2 := min (max a 0) len
  let b2 := min (max b 0) len
  (s.take (max a2 b2).toNat).drop (min a2 b2).toNat

/-- A successfully constructed DaapPacket: the 4-byte code and the payload
slice (named data in the source). -/
structure DaapPacket where
  code : List Nat
  data : List Nat
deriving DecidableEq, Repr

/-- The two throw sites of EndOfPacketException in the DaapPacket
constructor: fewer than 8 bytes remaining, and fewer than size bytes
remaining after the 8-byte header. -/
inductive DecodeError where
  | incompleteHeader
  | incompleteBody
deriving DecidableEq, Repr

deriving instance DecidableEq for Except

/-- The DaapPacket constructor: reads a 4-byte code and a 4-byte size field
at start, checks both remaining-length guards, and slices out the payload. -/
def decodeChunk (chunk : List Nat) (start : Nat) : Except DecodeError DaapPacket :=
  if (chunk.length : Int) - start < 8 then .error .incompleteHeader
  else if (chunk.length : Int) - start < 8 + readUInt32 chunk ((start : Int) + 4) then
    .error .incompleteBody
  else
    .ok ⟨jsSubstring chunk start ((start : Int) + 4),
         jsSubstring chunk ((start : Int) + 8) ((start : Int) + 8 + readUInt32 chunk ((start : Int) + 4))⟩

/-- size(): payload length plus the 8 header bytes. -/
def DaapPacket.size (p : DaapPacket) : Nat := p.data.length + 8

/-- convertToInt(): readUInt32 of the payload at offset 0. -/
def DaapPacket.convertToInt (p : DaapPacket) : Int := readUInt32 p.data 0

/-- convertToString(): the payload itself. -/
def DaapPacket.convertToString (p : DaapPacket) : List Nat := p.data

/-- Code units of a Lean string literal, used for the 4-character DAAP codes. -/
def str2cu (s : String) : List Nat := s.data.map Char.toNat

/-- A list of code units read back as a string (used where the JavaScript
code concatenates payload text into a larger string). -/
def cuString (l : List Nat) : String := String.mk (l.map Char.ofNat)

/-- Big-endian 4-byte encoding of a natural number, for building test
buffers. -/
def be32 (n : Nat) : List Nat := [n / 16777216 % 256, n / 65536 % 256, n / 256 % 256, n % 256]

/-- The seekFirst loop of DaapPacket.js, fuel-indexed: starting at offset,
repeatedly read the next chunk; any EndOfPacketException ends the loop with
null, a matching code ends it with that chunk.  Each successful read
advances the offset by at least 8, so fuel data.length + 1 is always
enough (seekFirstFuel_stable below). -/
def seekFirstFuel : Nat → List Nat → List Nat → Nat → Option DaapPacket
  | 0, _, _, _ => none
  | fuel + 1, data, refCode, offset =>
    match decodeChunk data offset with
    | .error _ => none
    | .ok c =>
      if c.code = refCode then some c
      else seekFirstFuel fuel data refCode (offset + c.size)

/-- The seek loop of DaapPacket.js, fuel-indexed: collect every chunk whose
code matches, stopping at the first EndOfPacketException. -/
def seekFuel : Nat → List Nat → List Nat → Nat → List DaapPacket
  | 0, _, _, _ => []
  | fuel + 1, data, refCode, offset =>
    match decodeChunk data offset with
    | .error _ => []
    | .ok c =>
      if c.code = refCode then c :: seekFuel fuel data refCode (offset + c.size)
      else seekFuel fuel data refCode (offset + c.size)

/-- The sequence of chunks obtained by iterating readNextChunk from offset
until the first failure of either kind: the children the source loops
enumerate. -/
def childrenFuel : Nat → List Nat → Nat → List DaapPacket
  | 0, _, _ => []
  | fuel + 1, data, offset =>
    match decodeChunk data offset with
    | .error _ => []
    | .ok c => c :: childrenFuel fuel data (offset + c.size)

/-- seekFirst(refCode): run the loop over the payload from offset 0. -/
def DaapPacket.seekFirst (p : DaapPacket) (refCode : List Nat) : Option DaapPacket :=
  seekFirstFuel (p.data.length + 1) p.data refCode 0

/-- seek(refCode): run the collecting loop over the payload from offset 0. -/
def DaapPacket.seek (p : DaapPacket) (refCode : List Nat) : List DaapPacket :=
  seekFuel (p.data.length + 1) p.data refCode 0

/-- The immediate children of a packet: the maximal decodable prefix
sequence of its payload. -/
def DaapPacket.children (p : DaapPacket) : List DaapPacket :=
  childrenFuel (p.data.length + 1) p.data 0

/-- Successful decoding needs at least 8 bytes from start to the end. -/
theorem decodeChunk_ok_bound {s : List Nat} {o : Nat} {c : DaapPacket}
    (h : decodeChunk s o = .ok c) : o + 8 ≤ s.length := by
  unfold decodeChunk at h
  split at h
  · exact absurd h (by simp)
  · next hlt => omega

/-- When fewer than 8 bytes remain, decoding fails at the header check. -/
theorem decodeChunk_header_err {s : List Nat} {o : Nat} (h : s.length < o + 8) :
    decodeChunk s o = .error .incompleteHeader := by
  unfold decodeChunk
  rw [if_pos]
  omega

/-- The loop result does not depend on the fuel once the fuel dominates the
number of bytes left: each successful read consumes at least 8 bytes. -/
theorem seekFirstFuel_stable (f₁ : Nat) : ∀ (f₂ : Nat) (data refCode : List Nat) (o : Nat),
    data.length < o + 8 * f₁ → data.length < o + 8 * f₂ →
    seekFirstFuel f₁ data refCode o = seekFirstFuel f₂ data refCode o := by
  induction f₁ with
  | zero =>
    intro f₂ data refCode o h₁ h₂
    cases f₂ with
    | zero => rfl
    | succ f₂ =>
      simp only [seekFirstFuel, @decodeChunk_header_err data o (by omega)]
  | succ f₁ ih =>
    intro f₂ data refCode o h₁ h₂
    cases f₂ with
    | zero =>
      simp only [seekFirstFuel, @decodeChunk_header_err data o (by omega)]
    | succ f₂ =>
      simp only [seekFirstFuel]
      cases hd : decodeChunk data o with
      | error e => rfl
      | ok c =>
        have hb := decodeChunk_ok_bound hd
        by_cases hc : c.code = refCode
        · simp [hc]
        · simp only [hc, if_false]
          exact ih f₂ data refCode (o + c.size)
            (by simp [DaapPacket.size] at *; omega)
            (by simp [DaapPacket.size] at *; omega)

/-- A transport result as seen by DaapHttpClient.execute: the final HTTP
status and the raw response text (code units). -/
structure TResp where
  status : Nat
  body : List Nat
deriving DecidableEq, Repr

/-- extractInt from DatabaseRequestHandler: seekFirst the code, -1 when the
result is null, convertToInt otherwise. -/
def extractInt (packet : DaapPacket) (code : List Nat) : Int :=
  match packet.seekFirst code with
  | none => -1
  | some c => c.convertToInt

/-- extractString from DatabaseRequestHandler: seekFirst the code, the
empty string when the result is null, convertToString otherwise. -/
def extractString (packet : DaapPacket) (code : List Nat) : List Nat :=
  match packet.seekFirst code with
  | none => []
  | some c => c.convertToString

/-- The seekFirst loop returns exactly the first enumerated child whose
code matches, and null when none does. -/
theorem seekFirstFuel_eq_find (f : Nat) : ∀ (data refCode : List Nat) (o : Nat),
    seekFirstFuel f data refCode o =
      (childrenFuel f data o).find? (fun c => decide (c.code = refCode)) := by
  induction f with
  | zero => intro data refCode o; rfl
  | succ f ih =>
    intro data refCode o
    simp only [seekFirstFuel, childrenFuel]
    cases hd : decodeChunk data o with
    | error e => rfl
    | ok c =>
      by_cases hc : c.code = refCode
      · simp [hc]
      · simp [hc, ih]

/-- The seek loop returns exactly the enumerated children whose code
matches, in encounter order. -/
theorem seekFuel_eq_filter (f : Nat) : ∀ (data refCode : List Nat) (o : Nat),
    seekFuel f data refCode o =
      (childrenFuel f data o).filter (fun c => decide (c.code = refCode)) := by
  induction f with
  | zero => intro data refCode o; rfl
  | succ f ih =>
    intro data refCode o
    simp only [seekFuel, childrenFuel]
    cases hd : decodeChunk data o with
    | error e => rfl
    | ok c =>
      by_cases hc : c.code = refCode
      · simp [hc, List.filter_cons, ih]
      · simp [hc, List.filter_cons, ih]

/-- A MediaItem: the record created by createDaapStream in
DatabaseRequestHandler (part holding the full field set with bitrate and
year). -/
structure MediaItem where
  uri : String
  trackNumber : Int
  title : String
  album : String
  artist : String
  genre : String
  id : String
  duration : Int
  size : Int
  format : String
  bitrate : Int
  year : Int
deriving DecidableEq, Repr

/-- createDaapStream: build a MediaItem from one mlit chunk, the session id
and the server base string.  bitrate and year apply the JavaScript signed
right shift by 16 to the extracted integer. -/
def createDaapStream (sid : Int) (server : String) (mlit : DaapPacket) : MediaItem :=
  let daapSongId := extractInt mlit (str2cu "miid")
  let songFormat := cuString (extractString mlit (str2cu "asfm"))
  { uri := server ++ "/databases/1/items/" ++ toString daapSongId ++ "." ++ songFormat ++
      "?session-id=" ++ toString sid
    trackNumber := extractInt mlit (str2cu "astn")
    title := cuString (extractString mlit (str2cu "minm"))
    album := cuString (extractString mlit (str2cu "asal"))
    artist := cuString (extractString mlit (str2cu "asar"))
    genre := cuString (extractString mlit (str2cu "asgn"))
    id := toString sid ++ "-" ++ toString daapSongId
    duration := extractInt mlit (str2cu "astm")
    size := extractInt mlit (str2cu "assz")
    format := songFormat
    bitrate := jsShr (extractInt mlit (str2cu "asbr")) 16
    year := jsShr (extractInt mlit (str2cu "asyr")) 16 }

/-- DatabaseRequestHandler.handleResponse: seekFirst mlcl, then seek mlit
under it and map createDaapStream over the matches, invoking the callback
with 200 and the list.  When no mlcl child exists, seekFirst returns null
and the subsequent seek call on null raises an uncaught TypeError: no
callback runs, modelled as none. -/
def dbHandleResponse (sid : Int) (server : String) (packet : DaapPacket) :
    Option (Nat × List MediaItem) :=
  match packet.seekFirst (str2cu "mlcl") with
  | none => none
  | some mlcl => some (200, (mlcl.seek (str2cu "mlit")).map (createDaapStream sid server))

/-- The outcome of one login() call against a scripted transport: the
request URIs handed to the transport in order, the status codes passed to
the user callback in order, the final session and revision ids, and
whether an uncaught TypeError aborted the sequence. -/
structure LoginRun where
  requests : List String
  calls : List Nat
  sid : Option Int
  rid : Option Int
  crashed : Bool
deriving DecidableEq, Repr

/-- login(callback) against a scripted transport returning r₁ for the login
request and r₂ for the update request.  Follows DaapHttpClient.execute
(non-200 status fires fail, an EndOfPacketException while constructing the
response packet fires fail(400)), LoginRequestHandler and
UpdateRequestHandler.handleResponse (seekFirst then convertToInt — a null
seekFirst result makes convertToInt an uncaught TypeError), and
LoginListener (sidUpdated stores sid and issues the update request,
ridUpdated stores rid and fires callback(200), fail forwards the code). -/
def runLogin (r₁ r₂ : TResp) : LoginRun :=
  if r₁.status ≠ 200 then ⟨["login"], [r₁.status], none, none, false⟩
  else
    match decodeChunk r₁.body 0 with
    | .error _ => ⟨["login"], [400], none, none, false⟩
    | .ok p₁ =>
      match p₁.seekFirst (str2cu "mlid") with
      | none => ⟨["login"], [], none, none, true⟩
      | some c₁ =>
        let sid := c₁.convertToInt
        let updateUri := "update?session-id=" ++ toString sid
        if r₂.status ≠ 200 then ⟨["login", updateUri], [r₂.status], some sid, none, false⟩
        else
          match decodeChunk r₂.body 0 with
          | .error _ => ⟨["login", updateUri], [400], some sid, none, false⟩
          | .ok p₂ =>
            match p₂.seekFirst (str2cu "musr") with
            | none => ⟨["login", updateUri], [], some sid, none, true⟩
            | some c₂ => ⟨["login", updateUri], [200], some sid, some c₂.convertToInt, false⟩

/-- The meta field list of DatabaseRequestHandler. -/
def dbFields : List String :=
  ["dmap.itemid", "daap.songformat", "dmap.itemname", "daap.songalbum",
   "daap.songartist", "daap.songgenre", "daap.songtracknumber", "daap.songtime",
   "daap.songsize", "daap.songyear", "daap.songbitrate"]

/-- DatabaseRequestHandler.getUri: the catalog request URI. -/
def dbGetUri (sid rid : Int) : String :=
  "databases/1/items?type=music&session-id=" ++ toString sid ++ "&revision-id=" ++
    toString rid ++ "&meta=" ++ String.intercalate "," dbFields

/-- The server base string computed by the DaapClient constructor: when the
port argument is omitted the literal is "http://" + ip + ":/3689". -/
def serverFor (ip : String) (port : Option Nat) : String :=
  match port with
  | none => "http://" ++ ip ++ ":/3689"
  | some p => "http://" ++ ip ++ ":" ++ toString p

/-- The outcome of one fetchStreams(callback) call: the error thrown by
checkLogin if any, the request URIs handed to the transport, the
(status, items) pairs passed to the callback, and whether an uncaught
TypeError aborted response handling. -/
structure FetchRun where
  thrown : Option String
  requests : List String
  calls : List (Nat × Option (List MediaItem))
  crashed : Bool
deriving DecidableEq, Repr

/-- fetchStreams(callback) on a client whose session state is (sid, rid),
against a scripted transport returning resp.  checkLogin throws
"Login not completed." before any request when sid or rid is null;
otherwise the catalog request is issued and the response handled by
DatabaseRequestHandler (fail passes (code, undefined)). -/
def fetchStreams (sid rid : Option Int) (server : String) (resp : TResp) : FetchRun :=
  match sid, rid with
  | some s, some r =>
    if resp.status ≠ 200 then ⟨none, [dbGetUri s r], [(resp.status, none)], false⟩
    else
      match decodeChunk resp.body 0 with
      | .error _ => ⟨none, [dbGetUri s r], [(400, none)], false⟩
      | .ok p =>
        match dbHandleResponse s server p with
        | none => ⟨none, [dbGetUri s r], [], true⟩
        | some (code, items) => ⟨none, [dbGetUri s r], [(code, some items)], false⟩
  | _, _ => ⟨some "Login not completed.", [], [], false⟩

/-! Claim theorems. -/

/-- Claim C1: decoding at an offset should fail with IncompleteHeader when
fewer than 8 bytes remain, fail with IncompleteBody when fewer than the
big-endian unsigned 32-bit length bytes remain after the header, and
otherwise succeed with a payload of exactly that length.  The code
violates this: on the 8-byte buffer with tag abcd and size field
80 00 00 00, the unsigned length is 2^31 while 0 bytes remain after the
header, so the claim requires an IncompleteBody failure — but readUInt32
computes the size with a signed 32-bit shift, yielding -2147483648; the
body check passes vacuously and the constructor succeeds, with a payload
that is the 8 header bytes themselves (the negative end index of
substring is clamped to 0 and swapped) and size() = 16, not 8 + length. -/
theorem c1_decode_signed_size_eval :
    decodeChunk [97, 98, 99, 100, 128, 0, 0, 0] 0 =
      .ok ⟨[97, 98, 99, 100], [97, 98, 99, 100, 128, 0, 0, 0]⟩ ∧
    decodeChunk [97, 98, 99, 100, 128, 0, 0, 0] 0 ≠ .error .incompleteBody ∧
    DaapPacket.size ⟨[97, 98, 99, 100], [97, 98, 99, 100, 128, 0, 0, 0]⟩ = 16 ∧
    readUInt32 [97, 98, 99, 100, 128, 0, 0, 0] 4 = -2147483648 := by decide

/-- Claim C2: asInteger should return the big-endian unsigned 32-bit value
of the first 4 payload bytes, non-negative for every payload including a
first byte of 0x80 or greater.  The code violates this: the byte is masked
to 8 bits but the JavaScript shift by 24 is a signed 32-bit shift, so for
the payload 80 00 00 00 convertToInt returns -2147483648, not 2^31. -/
theorem c2_convertToInt_negative_eval :
    decodeChunk (str2cu "mlid" ++ be32 4 ++ [128, 0, 0, 0]) 0 =
      .ok ⟨str2cu "mlid", [128, 0, 0, 0]⟩ ∧
    DaapPacket.convertToInt ⟨str2cu "mlid", [128, 0, 0, 0]⟩ = -2147483648 ∧
    DaapPacket.convertToInt ⟨str2cu "mlid", [128, 0, 0, 0]⟩ < 0 := by decide

/-- A valid login response: an mlog chunk containing mlid = 31. -/
def loginOkBody : List Nat :=
  str2cu "mlog" ++ be32 12 ++ str2cu "mlid" ++ be32 4 ++ be32 31

/-- A valid update response: a mupd chunk containing musr = 5. -/
def updateOkBody : List Nat :=
  str2cu "mupd" ++ be32 12 ++ str2cu "musr" ++ be32 4 ++ be32 5

/-- Claim C4: with a scripted transport returning a 200 login response
holding mlid = 31 and then a 200 update response holding musr = 5,
login(callback) issues the login and update requests, invokes the callback
exactly once with 200, and leaves the session state at sid = 31,
rid = 5. -/
theorem c4_login_end_to_end :
    runLogin ⟨200, loginOkBody⟩ ⟨200, updateOkBody⟩ =
      ⟨["login", "update?session-id=31"], [200], some 31, some 5, false⟩ := by decide

/-- Claim C5: whenever the transport reports a non-200 status for the
initial login request, the sequence terminates in the failed state with
that code: the callback is invoked once with the code, no session state is
set, and the update request is never issued (the only request handed to
the transport is login). -/
theorem c5_login_failure_no_update (code : Nat) (body : List Nat) (r₂ : TResp)
    (h : code ≠ 200) :
    runLogin ⟨code, body⟩ r₂ = ⟨["login"], [code], none, none, false⟩ := by
  simp [runLogin, h]

/-- Witness for C5 at the concrete status 401. -/
theorem c5_login_failure_no_update_witness :
    runLogin ⟨401, []⟩ ⟨200, updateOkBody⟩ = ⟨["login"], [401], none, none, false⟩ :=
  c5_login_failure_no_update 401 [] ⟨200, updateOkBody⟩ (by decide)

/-- Claim C6: whenever sid or rid is absent, fetchStreams throws the Error
"Login not completed." before doing anything else: no catalog request is
handed to the transport and the callback is never invoked. -/
theorem c6_fetch_requires_login (sid rid : Option Int) (server : String) (resp : TResp)
    (h : sid = none ∨ rid = none) :
    fetchStreams sid rid server resp = ⟨some "Login not completed.", [], [], false⟩ := by
  cases sid with
  | none => rfl
  | some s =>
    cases rid with
    | none => rfl
    | some r => rcases h with h | h <;> exact absurd h (by simp)

/-- Witness for C6: a client that never completed login (sid absent). -/
theorem c6_fetch_requires_login_witness :
    fetchStreams none (some 5) "http://10.0.0.1:3689" ⟨200, []⟩ =
      ⟨some "Login not completed.", [], [], false⟩ :=
  c6_fetch_requires_login none (some 5) "http://10.0.0.1:3689" ⟨200, []⟩ (Or.inl rfl)

/-- Claim C9: a 200 login response that decodes but contains no mlid child
makes handleResponse call convertToInt on the null result of seekFirst, an
uncaught TypeError: no request is retried, neither sidUpdated nor fail
fires, and the user callback is never invoked; likewise for a 200 update
response without musr, after sid was already stored. -/
theorem c9_missing_field_crashes :
    (∀ (b₁ : List Nat) (p₁ : DaapPacket) (r₂ : TResp),
      decodeChunk b₁ 0 = .ok p₁ → p₁.seekFirst (str2cu "mlid") = none →
      runLogin ⟨200, b₁⟩ r₂ = ⟨["login"], [], none, none, true⟩) ∧
    (∀ (b₁ b₂ : List Nat) (p₁ p₂ c : DaapPacket),
      decodeChunk b₁ 0 = .ok p₁ → p₁.seekFirst (str2cu "mlid") = some c →
      decodeChunk b₂ 0 = .ok p₂ → p₂.seekFirst (str2cu "musr") = none →
      runLogin ⟨200, b₁⟩ ⟨200, b₂⟩ =
        ⟨["login", "update?session-id=" ++ toString c.convertToInt], [],
         some c.convertToInt, none, true⟩) := by
  constructor
  · intro b₁ p₁ r₂ h₁ h₂
    simp [runLogin, h₁, h₂]
  · intro b₁ b₂ p₁ p₂ c h₁ h₂ h₃ h₄
    simp [runLogin, h₁, h₂, h₃, h₄]

/-- A 200 login response whose packet has no mlid child. -/
def noSidBody : List Nat :=
  str2cu "mlog" ++ be32 12 ++ str2cu "mstt" ++ be32 4 ++ be32 200

/-- A 200 update response whose packet has no musr child. -/
def noRidBody : List Nat :=
  str2cu "mupd" ++ be32 12 ++ str2cu "mstt" ++ be32 4 ++ be32 200

/-- Witness for C9 at concrete responses: a login response without mlid,
and a valid login followed by an update response without musr. -/
theorem c9_missing_field_crashes_witness :
    runLogin ⟨200, noSidBody⟩ ⟨200, updateOkBody⟩ = ⟨["login"], [], none, none, true⟩ ∧
    runLogin ⟨200, loginOkBody⟩ ⟨200, noRidBody⟩ =
      ⟨["login", "update?session-id=31"], [], some 31, none, true⟩ :=
  ⟨c9_missing_field_crashes.1 noSidBody ⟨str2cu "mlog", str2cu "mstt" ++ be32 4 ++ be32 200⟩
      ⟨200, updateOkBody⟩ (by decide) (by decide),
   c9_missing_field_crashes.2 loginOkBody noRidBody
      ⟨str2cu "mlog", str2cu "mlid" ++ be32 4 ++ be32 31⟩
      ⟨str2cu "mupd", str2cu "mstt" ++ be32 4 ++ be32 200⟩
      ⟨str2cu "mlid", [0, 0, 0, 31]⟩ (by decide) (by decide) (by decide) (by decide)⟩

/-- Claim C7: for every decoded chunk and tag, when no enumerated child
carries the tag, seekFirst returns null without raising an error,
extractInt returns -1 and extractString returns the empty string; when
some child carries it, both return the value of the first such child. -/
theorem c7_extract_sentinels (p : DaapPacket) (t : List Nat) :
    ((∀ c ∈ p.children, c.code ≠ t) →
      p.seekFirst t = none ∧ extractInt p t = -1 ∧ extractString p t = []) ∧
    (∀ c, p.children.find? (fun x => decide (x.code = t)) = some c →
      p.seekFirst t = some c ∧ extractInt p t = c.convertToInt ∧
        extractString p t = c.convertToString) := by
  have hfind : p.seekFirst t = p.children.find? (fun x => decide (x.code = t)) :=
    seekFirstFuel_eq_find (p.data.length + 1) p.data t 0
  constructor
  · intro h
    have hnone : p.seekFirst t = none := by
      rw [hfind, List.find?_eq_none]
      intro x hx
      simpa using h x hx
    exact ⟨hnone, by simp [extractInt, hnone], by simp [extractString, hnone]⟩
  · intro c hc
    have hsome : p.seekFirst t = some c := by rw [hfind]; exact hc
    exact ⟨hsome, by simp [extractInt, hsome], by simp [extractString, hsome]⟩

/-- A decoded mlog chunk with a single mlid = 31 child, for the C7
witness. -/
def mlogPacket : DaapPacket := ⟨str2cu "mlog", str2cu "mlid" ++ be32 4 ++ be32 31⟩

/-- Witness for C7: on the mlog packet, the absent tag musr yields null,
-1 and the empty string, and the present tag mlid yields its first child
with value 31. -/
theorem c7_extract_sentinels_witness :
    (mlogPacket.seekFirst (str2cu "musr") = none ∧
      extractInt mlogPacket (str2cu "musr") = -1 ∧
      extractString mlogPacket (str2cu "musr") = []) ∧
    (mlogPacket.seekFirst (str2cu "mlid") = some ⟨str2cu "mlid", [0, 0, 0, 31]⟩ ∧
      extractInt mlogPacket (str2cu "mlid") = 31 ∧
      extractString mlogPacket (str2cu "mlid") = [0, 0, 0, 31]) :=
  ⟨(c7_extract_sentinels mlogPacket (str2cu "musr")).1 (by decide),
   (c7_extract_sentinels mlogPacket (str2cu "mlid")).2
      ⟨str2cu "mlid", [0, 0, 0, 31]⟩ (by decide)⟩

/-- A decoded cont chunk whose payload is a well-formed mfoo child, then a
malformed child (tag junk, declared size 65535 with only 12 bytes left),
then a well-formed mlit child that iteration never reaches. -/
def malParent : DaapPacket :=
  ⟨str2cu "cont",
   str2cu "mfoo" ++ be32 4 ++ be32 1 ++ str2cu "junk" ++ [0, 0, 255, 255] ++
     str2cu "mlit" ++ be32 4 ++ be32 2⟩

/-- Claim C3 counterexample: in the middle of malParent, at offset 12 with
20 bytes still remaining, decoding fails with IncompleteBody (a malformed
child, not exhaustion), and a well-formed mlit child follows at offset 20
— yet seekFirst for mlit returns absent (null) and seek for mlit returns
the empty, silently truncated list: the structural error is swallowed as
end-of-iteration, refuting the claim as stated. -/
theorem c3_swallow_counterexample :
    decodeChunk (str2cu "cont" ++ be32 32 ++ malParent.data) 0 = .ok malParent ∧
    decodeChunk malParent.data 12 = .error .incompleteBody ∧
    decodeChunk malParent.data 20 = .ok ⟨str2cu "mlit", [0, 0, 0, 2]⟩ ∧
    malParent.seekFirst (str2cu "mlit") = none ∧
    malParent.seek (str2cu "mlit") = [] := by decide

/-- Claim C3 as amended: a decode failure on a malformed child in the
middle of the payload is not distinguished from normal exhaustion — both
loops catch every EndOfPacketException, so seekFirst returns exactly the
first match among the children decoded before the first failure (null if
none) and seek returns exactly the matches among those children, a
silently truncated list. -/
theorem c3_amended_iteration_swallows (p : DaapPacket) (t : List Nat) :
    p.seekFirst t = p.children.find? (fun c => decide (c.code = t)) ∧
    p.seek t = p.children.filter (fun c => decide (c.code = t)) :=
  ⟨seekFirstFuel_eq_find (p.data.length + 1) p.data t 0,
   seekFuel_eq_filter (p.data.length + 1) p.data t 0⟩

/-- Claim C8: a 200 catalog response whose packet has a first mlcl child m
makes the handler collect all mlit children of m in encounter order and
map each to exactly one MediaItem whose id is sid-itemId, whose uri is
server/databases/1/items/itemId.format?session-id=sid, whose string
fields are the extracted strings, whose integer fields are the extracted
integers, and whose bitrate and year are the extracted integers shifted
right by 16; the callback receives 200 and this list. -/
theorem c8_catalog_items (sid : Int) (server : String) (p m : DaapPacket)
    (h : p.seekFirst (str2cu "mlcl") = some m) :
    dbHandleResponse sid server p =
      some (200, (m.seek (str2cu "mlit")).map (fun mlit =>
        ({ uri := server ++ "/databases/1/items/" ++
             toString (extractInt mlit (str2cu "miid")) ++ "." ++
             cuString (extractString mlit (str2cu "asfm")) ++ "?session-id=" ++ toString sid
           trackNumber := extractInt mlit (str2cu "astn")
           title := cuString (extractString mlit (str2cu "minm"))
           album := cuString (extractString mlit (str2cu "asal"))
           artist := cuString (extractString mlit (str2cu "asar"))
           genre := cuString (extractString mlit (str2cu "asgn"))
           id := toString sid ++ "-" ++ toString (extractInt mlit (str2cu "miid"))
           duration := extractInt mlit (str2cu "astm")
           size := extractInt mlit (str2cu "assz")
           format := cuString (extractString mlit (str2cu "asfm"))
           bitrate := jsShr (extractInt mlit (str2cu "asbr")) 16
           year := jsShr (extractInt mlit (str2cu "asyr")) 16 } : MediaItem))) := by
  simp only [dbHandleResponse, h]
  rfl

/-- A catalog response packet: adbs containing one mlcl, itself containing
one mlit with miid = 100 and minm = Song. -/
def catalogPacket : DaapPacket :=
  ⟨str2cu "adbs",
   str2cu "mlcl" ++ be32 32 ++ str2cu "mlit" ++ be32 24 ++
     str2cu "miid" ++ be32 4 ++ be32 100 ++ str2cu "minm" ++ be32 4 ++ str2cu "Song"⟩

/-- Witness for C8: on the concrete catalog packet with sid 31, the handler
produces exactly one MediaItem with id 31-100, title Song, the uri built
from the server base, and sentinel values for the absent fields. -/
theorem c8_catalog_items_witness :
    dbHandleResponse 31 "http://10.0.0.1:3689" catalogPacket =
      some (200,
        [{ uri := "http://10.0.0.1:3689" ++ "/databases/1/items/" ++ "100" ++ "." ++
             "" ++ "?session-id=" ++ "31"
           trackNumber := -1
           title := "Song"
           album := ""
           artist := ""
           genre := ""
           id := "31" ++ "-" ++ "100"
           duration := -1
           size := -1
           format := ""
           bitrate := -1
           year := -1 }]) :=
  c8_catalog_items 31 "http://10.0.0.1:3689" catalogPacket
    ⟨str2cu "mlcl",
     str2cu "mlit" ++ be32 24 ++ str2cu "miid" ++ be32 4 ++ be32 100 ++
       str2cu "minm" ++ be32 4 ++ str2cu "Song"⟩ (by decide)

/-- Claim C10: with the port argument omitted, the constructor computes
the server base string "http://" + ip + ":/3689" (the slash precedes the
digits instead of the colon being followed by the port), which differs
from the intended "http://" + ip + ":3689"; consequently every MediaItem
uri produced by fetchStreams on such a client begins with this malformed
base. -/
theorem c10_default_port_malformed (ip : String) (sid rid : Option Int) (resp : TResp)
    (st : Nat) (items : List MediaItem) (item : MediaItem)
    (h₁ : (st, some items) ∈ (fetchStreams sid rid (serverFor ip none) resp).calls)
    (h₂ : item ∈ items) :
    serverFor ip none = "http://" ++ ip ++ ":/3689" ∧
    serverFor ip none ≠ "http://" ++ ip ++ ":3689" ∧
    ∃ rest, item.uri = "http://" ++ ip ++ ":/3689" ++ rest := by
  refine ⟨rfl, ?_, ?_⟩
  · intro he
    have hl := congrArg String.length he
    simp only [serverFor, String.length_append] at hl
    rw [show (":/3689" : String).length = 6 from rfl,
        show (":3689" : String).length = 5 from rfl] at hl
    omega
  · cases sid with
    | none => exact absurd h₁ (by simp [fetchStreams])
    | some s =>
      cases rid with
      | none => exact absurd h₁ (by simp [fetchStreams])
      | some r =>
        simp only [fetchStreams] at h₁
        split at h₁
        · simp at h₁
        · split at h₁
          · simp at h₁
          · next p hp =>
            split at h₁
            · simp at h₁
            · next code items' hdb =>
              simp only [List.mem_singleton, Prod.mk.injEq, Option.some.injEq] at h₁
              obtain ⟨hst, hitems⟩ := h₁
              subst hitems
              simp only [dbHandleResponse] at hdb
              split at hdb
              · exact absurd hdb (by simp)
              · next mlcl hmlcl =>
                rw [Option.some.injEq, Prod.mk.injEq] at hdb
                obtain ⟨hcode, hitems'⟩ := hdb
                rw [← hitems'] at h₂
                obtain ⟨mlit, hmem, hitem⟩ := List.mem_map.mp h₂
                refine ⟨"/databases/1/items/" ++
                  toString (extractInt mlit (str2cu "miid")) ++ "." ++
                  cuString (extractString mlit (str2cu "asfm")) ++
                  "?session-id=" ++ toString s, ?_⟩
                rw [← hitem]
                simp [createDaapStream, serverFor, String.append_assoc]
                rfl

/-- A complete catalog response body for the C10 witness: an adbs chunk
holding one mlcl, holding one mlit with miid = 100 and minm = Song. -/
def c10Body : List Nat :=
  str2cu "adbs" ++ be32 40 ++ str2cu "mlcl" ++ be32 32 ++ str2cu "mlit" ++ be32 24 ++
    str2cu "miid" ++ be32 4 ++ be32 100 ++ str2cu "minm" ++ be32 4 ++ str2cu "Song"

/-- The MediaItem fetchStreams produces from c10Body on a client built
without a port argument. -/
def c10Item : MediaItem :=
  { uri := "http://10.0.0.1:/3689/databases/1/items/100.?session-id=31"
    trackNumber := -1
    title := "Song"
    album := ""
    artist := ""
    genre := ""
    id := "31-100"
    duration := -1
    size := -1
    format := ""
    bitrate := -1
    year := -1 }

/-- Witness for C10 at a concrete client (ip 10.0.0.1, port omitted) and
catalog response. -/
theorem c10_default_port_malformed_witness :
    serverFor "10.0.0.1" none = "http://" ++ "10.0.0.1" ++ ":/3689" ∧
    serverFor "10.0.0.1" none ≠ "http://" ++ "10.0.0.1" ++ ":3689" ∧
    ∃ rest, c10Item.uri = "http://" ++ "10.0.0.1" ++ ":/3689" ++ rest :=
  c10_default_port_malformed "10.0.0.1" (some 31) (some 5) ⟨200, c10Body⟩ 200
    [c10Item] c10Item (by decide) (by decide)

end DaapClient
